import Mathlib

/-!
Shallow embedding of `src/app.py`, a Flask course-catalog service with
OpenTelemetry instrumentation.  Pure data flow (the JSON-file store, form
validation, course lookup) is translated into executable Lean functions;
each request handler is translated into a function that returns the list
of telemetry/side-effect events it emits, its outcome (a normal response
or a propagating exception), and the resulting store state.
-/

/-- A course record, the dict built in `add_course` (app.py lines 180-190).
All nine fields are strings. -/
structure Course where
  code : String
  name : String
  instructor : String
  semester : String
  schedule : String
  classroom : String
  prerequisites : String
  grading : String
  description : String
deriving Repr, DecidableEq

/-- The state of the backing JSON file `course_catalog.json`: the file may be
absent, present but not parseable as JSON (so `json.load` raises), or present
and parsed to a list of course records. -/
inductive StoreFile where
  | absent : StoreFile
  | unparseable : StoreFile
  | parsed : List Course → StoreFile
deriving Repr, DecidableEq

/-- Exceptions that can propagate out of the translated code:
`storeUnavailable` is the JSON parse failure raised by `json.load` in
`load_courses`; `keyError k` is the `BadRequestKeyError` (HTTP 400) raised by
`request.form[k]` when key `k` is absent from the submitted form. -/
inductive AppError where
  | storeUnavailable : AppError
  | keyError : String → AppError
deriving Repr, DecidableEq

/-- Attribute values attached to spans (strings, numbers, booleans). -/
inductive AttrValue where
  | str : String → AttrValue
  | int : Int → AttrValue
  | bool : Bool → AttrValue
  | rat : Rat → AttrValue
deriving Repr, DecidableEq

/-- One telemetry or user-visible side effect emitted while handling a
request: span lifecycle, span enrichment, metric updates, log lines and
flash messages. -/
inductive TelemetryEvent where
  | spanOpen : String → TelemetryEvent
  | spanClose : String → TelemetryEvent
  | setAttribute : String → String → AttrValue → TelemetryEvent
  | spanEvent : String → String → TelemetryEvent
  | spanStatusError : String → TelemetryEvent
  | recordException : String → String → TelemetryEvent
  | counterAdd : String → Nat → List (String × String) → TelemetryEvent
  | histogramRecord : String → Rat → List (String × String) → TelemetryEvent
  | logInfo : String → TelemetryEvent
  | logError : String → TelemetryEvent
  | flash : String → String → TelemetryEvent
deriving Repr, DecidableEq

/-- The outcome of a handler that did not raise: a redirect to a named
endpoint or a rendered template. -/
inductive HandlerResult where
  | redirect : String → HandlerResult
  | render : String → HandlerResult
deriving Repr, DecidableEq

/-- Per-request metadata used by the handlers (client address, host header,
stringified request headers). -/
structure RequestCtx where
  remote_addr : String
  host : String
  headers : String
deriving Repr, DecidableEq

/-- HTTP method of the request, as tested by `request.method == 'POST'`. -/
inductive Method where
  | get : Method
  | post : Method
deriving Repr, DecidableEq

/-- Translation of `load_courses` (app.py lines 94-99): returns `[]` when the file does not
exist, otherwise `json.load`s it, raising on a parse failure. -/
def load_courses (store : StoreFile) : Except AppError (List Course) :=
  match store with
  | StoreFile.absent => Except.ok []
  | StoreFile.unparseable => Except.error AppError.storeUnavailable
  | StoreFile.parsed courses => Except.ok courses

/-- Translation of `save_courses` (app.py lines 101-106): reads the whole current list
(propagating any parse failure), appends the new record, and rewrites the
file in full.  Returns the new file state. -/
def save_courses (data : Course) (store : StoreFile) : Except AppError StoreFile :=
  match load_courses store with
  | Except.error e => Except.error e
  | Except.ok courses => Except.ok (StoreFile.parsed (courses ++ [data]))

/-- The submitted form: an association list from field name to value.
`request.form.get k` returns the first value bound to `k`, if any. -/
def formGet (form : List (String × String)) (k : String) : Option String :=
  (form.find? (fun p => p.1 == k)).map (fun p => p.2)

/-- Translation of `request.form[k]`: raises `BadRequestKeyError` (HTTP 400) when `k` is
absent, otherwise returns the bound value (possibly the empty string). -/
def formIndex (form : List (String × String)) (k : String) : Except AppError String :=
  match formGet form k with
  | some v => Except.ok v
  | none => Except.error (AppError.keyError k)

/-- The required-field list of `add_course` (app.py line 132). -/
def required_fields : List String := ["code", "name"]

/-- Python truthiness test `not request.form.get(field)`: the field is
missing when it is absent (`None`) or bound to the empty string. -/
def isMissing (form : List (String × String)) (field : String) : Bool :=
  match formGet form field with
  | none => true
  | some v => v == ""

/-- The list comprehension of app.py line 133: every required field that is
absent or empty, in order. -/
def missing_fields (form : List (String × String)) : List String :=
  required_fields.filter (isMissing form)

/-- The dict literal of app.py lines 180-190: each field is read with
`request.form[...]`, so the first absent key raises `keyError` (HTTP 400).
Evaluation order follows the source. -/
def buildCourse (form : List (String × String)) : Except AppError Course := do
  let code ← formIndex form "code"
  let name ← formIndex form "name"
  let instructor ← formIndex form "instructor"
  let semester ← formIndex form "semester"
  let schedule ← formIndex form "schedule"
  let classroom ← formIndex form "classroom"
  let prerequisites ← formIndex form "prerequisites"
  let grading ← formIndex form "grading"
  let description ← formIndex form "description"
  Except.ok {
    code := code
    name := name
    instructor := instructor
    semester := semester
    schedule := schedule
    classroom := classroom
    prerequisites := prerequisites
    grading := grading
    description := description }

/-- Python repr of a list of strings, as produced by `str(missing_fields)`. -/
def pyListRepr (l : List String) : String :=
  "[" ++ String.intercalate ", " (l.map (fun s => "'" ++ s ++ "'")) ++ "]"

/-- The error message of app.py line 135. -/
def missingFieldsMessage (missing : List String) : String :=
  "Missing fields: " ++ String.intercalate ", " missing

/-- Translation of the `course_catalog` handler (app.py lines 113-123): opens the route
span, loads the store (a parse failure propagates out of the `with` block,
which still closes the span), sets the `total_courses` and `route`
attributes, logs, bumps the route counter, and renders the catalog. -/
def course_catalog (ctx : RequestCtx) (store : StoreFile) :
    List TelemetryEvent × Except AppError HandlerResult :=
  match load_courses store with
  | Except.error e =>
      ([TelemetryEvent.spanOpen "course_catalog_route",
        TelemetryEvent.spanClose "course_catalog_route"],
       Except.error e)
  | Except.ok courses =>
      ([TelemetryEvent.spanOpen "course_catalog_route",
        TelemetryEvent.setAttribute "course_catalog_route" "total_courses"
          (AttrValue.int courses.length),
        TelemetryEvent.setAttribute "course_catalog_route" "route" (AttrValue.str "/catalog"),
        TelemetryEvent.logInfo
          ("Course Catalog accessed | Total Courses: " ++ toString courses.length ++
            " | IP: " ++ ctx.remote_addr),
        TelemetryEvent.counterAdd "route_requests" 1 [("route", "/catalog")],
        TelemetryEvent.spanClose "course_catalog_route"],
       Except.ok (HandlerResult.render "course_catalog.html"))

/-- Translation of the `add_course` handler (app.py lines 125-199).  Event payloads that
depend on the wall clock (`time.time()`, `time.strftime`) are elided from the
logged strings; the event kinds and their order follow the source.  Returns
the emitted events, the outcome, and the store state after the request. -/
def add_course (ctx : RequestCtx) (method : Method) (form : List (String × String))
    (store : StoreFile) :
    List TelemetryEvent × Except AppError HandlerResult × StoreFile :=
  let openEvts : List TelemetryEvent :=
    [TelemetryEvent.spanOpen "add_course_route",
     TelemetryEvent.setAttribute "add_course_route" "client.ip" (AttrValue.str ctx.remote_addr),
     TelemetryEvent.setAttribute "add_course_route" "client.host" (AttrValue.str ctx.host)]
  match method with
  | Method.get =>
      (openEvts ++
        [TelemetryEvent.logInfo "Rendered Add Course page",
         TelemetryEvent.spanClose "add_course_route"],
       Except.ok (HandlerResult.render "add_course.html"), store)
  | Method.post =>
      let missing := missing_fields form
      if missing = [] then
        match buildCourse form with
        | Except.error e =>
            (openEvts ++ [TelemetryEvent.spanClose "add_course_route"],
             Except.error e, store)
        | Except.ok course =>
            match save_courses course store with
            | Except.error e =>
                (openEvts ++ [TelemetryEvent.spanClose "add_course_route"],
                 Except.error e, store)
            | Except.ok newStore =>
                (openEvts ++
                  [TelemetryEvent.setAttribute "add_course_route" "added_course"
                     (AttrValue.str course.name),
                   TelemetryEvent.logInfo
                     ("Course added | Code: " ++ course.code ++ " | Name: " ++ course.name ++
                       " | IP: " ++ ctx.remote_addr),
                   TelemetryEvent.flash
                     ("Course '" ++ course.name ++ "' added successfully!") "success",
                   TelemetryEvent.spanClose "add_course_route"],
                 Except.ok (HandlerResult.redirect "course_catalog"), newStore)
      else
        let error_message := missingFieldsMessage missing
        (openEvts ++
          [TelemetryEvent.counterAdd "errors" 1
             [("route", "/add_course"), ("error_type", "missing_fields")],
           TelemetryEvent.spanOpen "form_validation_error",
           TelemetryEvent.setAttribute "form_validation_error" "error.type"
             (AttrValue.str "missing_fields"),
           TelemetryEvent.setAttribute "form_validation_error" "missing_fields"
             (AttrValue.str (pyListRepr missing)),
           TelemetryEvent.setAttribute "form_validation_error" "total_errors"
             (AttrValue.int missing.length),
           TelemetryEvent.setAttribute "form_validation_error" "operation.type"
             (AttrValue.str "form_validation"),
           TelemetryEvent.setAttribute "form_validation_error" "client.ip"
             (AttrValue.str ctx.remote_addr),
           TelemetryEvent.setAttribute "form_validation_error" "client.host"
             (AttrValue.str ctx.host),
           TelemetryEvent.spanStatusError "form_validation_error",
           TelemetryEvent.recordException "form_validation_error" error_message,
           TelemetryEvent.spanEvent "form_validation_error" "validation_failed",
           TelemetryEvent.logError
             ("form_validation_error | missing_fields: " ++ pyListRepr missing ++
               " | IP: " ++ ctx.remote_addr),
           TelemetryEvent.spanClose "form_validation_error",
           TelemetryEvent.setAttribute "add_course_route" "error" (AttrValue.bool true),
           TelemetryEvent.setAttribute "add_course_route" "error_type"
             (AttrValue.str "missing_fields"),
           TelemetryEvent.spanEvent "add_course_route" "error_occurred",
           TelemetryEvent.logError
             ("Form validation failed - " ++ error_message ++ " | IP: " ++ ctx.remote_addr),
           TelemetryEvent.flash error_message "error",
           TelemetryEvent.spanClose "add_course_route"],
         Except.ok (HandlerResult.redirect "add_course"), store)

/-- Translation of the `course_details` handler (app.py lines 202-243): opens the route
span, loads the store (parse failures propagate, the span still closes),
looks up the first course whose `code` equals the path parameter, and either
takes the not-found path (error counter, flash, redirect) or opens the
nested view span and renders the details page. -/
def course_details (ctx : RequestCtx) (code : String) (store : StoreFile) :
    List TelemetryEvent × Except AppError HandlerResult :=
  let openEvts : List TelemetryEvent :=
    [TelemetryEvent.spanOpen "course_details_route",
     TelemetryEvent.setAttribute "course_details_route" "client.ip"
       (AttrValue.str ctx.remote_addr),
     TelemetryEvent.setAttribute "course_details_route" "client.host" (AttrValue.str ctx.host),
     TelemetryEvent.setAttribute "course_details_route" "request.headers"
       (AttrValue.str ctx.headers)]
  match load_courses store with
  | Except.error e =>
      (openEvts ++ [TelemetryEvent.spanClose "course_details_route"], Except.error e)
  | Except.ok courses =>
      match courses.find? (fun course => course.code == code) with
      | none =>
          (openEvts ++
            [TelemetryEvent.counterAdd "errors" 1
               [("route", "/course/<code>"), ("error_type", "not_found")],
             TelemetryEvent.flash ("No course found with code '" ++ code ++ "'.") "error",
             TelemetryEvent.spanClose "course_details_route"],
           Except.ok (HandlerResult.redirect "course_catalog"))
      | some course =>
          (openEvts ++
            [TelemetryEvent.spanOpen ("view_course_" ++ code),
             TelemetryEvent.setAttribute ("view_course_" ++ code) "course.code"
               (AttrValue.str code),
             TelemetryEvent.setAttribute ("view_course_" ++ code) "course.name"
               (AttrValue.str course.name),
             TelemetryEvent.setAttribute ("view_course_" ++ code) "course.instructor"
               (AttrValue.str course.instructor),
             TelemetryEvent.setAttribute ("view_course_" ++ code) "course.semester"
               (AttrValue.str course.semester),
             TelemetryEvent.setAttribute ("view_course_" ++ code) "operation.type"
               (AttrValue.str "course_view"),
             TelemetryEvent.setAttribute ("view_course_" ++ code) "client.ip"
               (AttrValue.str ctx.remote_addr),
             TelemetryEvent.setAttribute ("view_course_" ++ code) "client.host"
               (AttrValue.str ctx.host),
             TelemetryEvent.spanEvent ("view_course_" ++ code) "course_accessed",
             TelemetryEvent.setAttribute "course_details_route" "viewed_course"
               (AttrValue.str course.name),
             TelemetryEvent.logInfo
               ("Course Details Viewed | Code: " ++ code ++ " | Name: " ++ course.name ++
                 " | IP: " ++ ctx.remote_addr),
             TelemetryEvent.spanClose ("view_course_" ++ code),
             TelemetryEvent.spanClose "course_details_route"],
           Except.ok (HandlerResult.render "course_details.html"))

/-- Translation of the `before_request` hook (app.py lines 74-76): records the request
start time on the request context. -/
def before_request (now : Rat) : Option Rat :=
  some now

/-- Translation of the `after_request` hook (app.py lines 78-91): always bumps the route
counter; when a start time was recorded, also records the duration histogram
with elapsed milliseconds, enriches the current span, and logs. -/
def after_request (endpoint : String) (remote_addr : String) (start_time : Option Rat)
    (now : Rat) : List TelemetryEvent :=
  TelemetryEvent.counterAdd "route_requests" 1 [("route", endpoint)] ::
    match start_time with
    | none => []
    | some start =>
        let duration : Rat := (now - start) * 1000
        [TelemetryEvent.histogramRecord "operation_duration" duration [("route", endpoint)],
         TelemetryEvent.setAttribute "current" "route_processing_time_ms"
           (AttrValue.rat duration),
         TelemetryEvent.spanEvent "current" "request_processed",
         TelemetryEvent.logInfo
           ("Processed " ++ endpoint ++ " in " ++ toString duration ++ " ms | IP: " ++
             remote_addr)]

/-- Span names opened during a request, in order. -/
def spanOpens (t : List TelemetryEvent) : List String :=
  t.filterMap (fun e =>
    match e with
    | TelemetryEvent.spanOpen n => some n
    | _ => none)

/-- Span names closed during a request, in order. -/
def spanCloses (t : List TelemetryEvent) : List String :=
  t.filterMap (fun e =>
    match e with
    | TelemetryEvent.spanClose n => some n
    | _ => none)

/-- The amounts of all increments of the `errors` counter carrying exactly
the given route and error-type tags, in order of occurrence. -/
def errorsCounterAdds (route etype : String) (t : List TelemetryEvent) : List Nat :=
  t.filterMap (fun e =>
    match e with
    | TelemetryEvent.counterAdd n k tags =>
        if n == "errors" && tags == [("route", route), ("error_type", etype)] then some k
        else none
    | _ => none)

/-- An event that marks an error on a span: an `error` or `error_type`
attribute, an error status, or a recorded exception. -/
def isErrorAttrEvent (e : TelemetryEvent) : Bool :=
  match e with
  | TelemetryEvent.setAttribute _ k _ => k == "error" || k == "error_type"
  | TelemetryEvent.spanStatusError _ => true
  | TelemetryEvent.recordException _ _ => true
  | _ => false

/-- An error-level log line. -/
def isLogErrorEvent (e : TelemetryEvent) : Bool :=
  match e with
  | TelemetryEvent.logError _ => true
  | _ => false

/-- A duration-histogram record. -/
def isHistogramEvent (e : TelemetryEvent) : Bool :=
  match e with
  | TelemetryEvent.histogramRecord _ _ _ => true
  | _ => false

/-- A fixed request context used to evaluate the handlers on concrete
inputs. -/
def ctx0 : RequestCtx :=
  { remote_addr := "127.0.0.1", host := "localhost:5000", headers := "Host: localhost" }

/-- A concrete course record used to evaluate the store on concrete
inputs. -/
def c0 : Course :=
  { code := "CS101", name := "Intro", instructor := "Dr. A", semester := "Fall 2026",
    schedule := "MWF 9-10", classroom := "AB1-101", prerequisites := "", grading := "relative",
    description := "" }

/-- A second concrete course sharing the code of `c0` but differing
elsewhere, used to exercise duplicate-code stores. -/
def c1 : Course :=
  { code := "CS101", name := "Intro Again", instructor := "Dr. B", semester := "Spring 2026",
    schedule := "TT 2-3:30", classroom := "AB2-202", prerequisites := "", grading := "absolute",
    description := "duplicate code" }

/-- The two possible shapes of the missing-field list: it is a sublist of
the fixed required-field list, in order. -/
theorem missing_fields_shape (form : List (String × String)) :
    missing_fields form = [] ∨ missing_fields form = ["code"] ∨
      missing_fields form = ["name"] ∨ missing_fields form = ["code", "name"] := by
  unfold missing_fields required_fields
  cases h1 : isMissing form "code" <;> cases h2 : isMissing form "name" <;>
    simp [List.filter, h1, h2]

/-- C8: when no backing store file exists, `load_courses` returns the empty
sequence, and `GET /catalog` then runs with the span attribute
`total_courses` set to `0`, no error attributes or error logs, and renders
the catalog page. -/
theorem empty_store_catalog_zero_no_errors (ctx : RequestCtx) :
    load_courses StoreFile.absent = Except.ok [] ∧
    TelemetryEvent.setAttribute "course_catalog_route" "total_courses" (AttrValue.int 0)
      ∈ (course_catalog ctx StoreFile.absent).1 ∧
    (course_catalog ctx StoreFile.absent).1.filter isErrorAttrEvent = [] ∧
    (course_catalog ctx StoreFile.absent).1.filter isLogErrorEvent = [] ∧
    (course_catalog ctx StoreFile.absent).2 =
      Except.ok (HandlerResult.render "course_catalog.html") := by
  refine ⟨rfl, ?_, ?_, ?_, rfl⟩ <;>
    simp [course_catalog, load_courses, isErrorAttrEvent, isLogErrorEvent, List.filter]

/-- C3 counterexample: when the store file exists but cannot be parsed, the
parse failure (`StoreUnavailable`) propagates out of both `GET /catalog` and
`GET /course/<code>` as an unhandled exception, contradicting the claim that
all three error kinds are handled locally at the handler boundary. -/
theorem store_parse_failure_propagates_cex :
    (course_catalog ctx0 StoreFile.unparseable).2 = Except.error AppError.storeUnavailable ∧
    (course_details ctx0 "CS101" StoreFile.unparseable).2 =
      Except.error AppError.storeUnavailable :=
  ⟨rfl, rfl⟩

/-- C3 amended: validation failures and lookup failures are handled locally
(the handler returns a redirect, never an exception), but a store parse
failure is not: it propagates unhandled out of `GET /catalog` and
`GET /course/<code>`. -/
theorem handled_errors_amended :
    (∀ (ctx : RequestCtx) (form : List (String × String)) (store : StoreFile),
      missing_fields form ≠ [] →
      (add_course ctx Method.post form store).2.1 =
        Except.ok (HandlerResult.redirect "add_course")) ∧
    (∀ (ctx : RequestCtx) (code : String) (store : StoreFile) (courses : List Course),
      load_courses store = Except.ok courses →
      courses.find? (fun c => c.code == code) = none →
      (course_details ctx code store).2 =
        Except.ok (HandlerResult.redirect "course_catalog")) ∧
    (∀ ctx : RequestCtx,
      (course_catalog ctx StoreFile.unparseable).2 = Except.error AppError.storeUnavailable) ∧
    (∀ (ctx : RequestCtx) (code : String),
      (course_details ctx code StoreFile.unparseable).2 =
        Except.error AppError.storeUnavailable) := by
  refine ⟨?_, ?_, fun ctx => rfl, fun ctx code => rfl⟩
  · intro ctx form store h
    simp [add_course, h]
  · intro ctx code store courses h1 h2
    simp [course_details, h1, h2]

/-- Witness for the amended C3 theorem at concrete inputs. -/
theorem handled_errors_amended_witness :
    missing_fields [] ≠ [] ∧
    (add_course ctx0 Method.post [] StoreFile.absent).2.1 =
      Except.ok (HandlerResult.redirect "add_course") ∧
    load_courses StoreFile.absent = Except.ok [] ∧
    List.find? (fun c => c.code == "CS999") ([] : List Course) = none ∧
    (course_details ctx0 "CS999" StoreFile.absent).2 =
      Except.ok (HandlerResult.redirect "course_catalog") :=
  ⟨by decide, handled_errors_amended.1 ctx0 [] StoreFile.absent (by decide), rfl, rfl,
    handled_errors_amended.2.1 ctx0 "CS999" StoreFile.absent [] rfl rfl⟩

/-- C5 counterexample: on an unparseable store, `append` (save_courses)
raises instead of appending, and `readAll` (load_courses) raises as well, so
the round-trip property does not hold for every store state. -/
theorem append_readAll_round_trip_cex :
    save_courses c0 StoreFile.unparseable = Except.error AppError.storeUnavailable ∧
    load_courses StoreFile.unparseable = Except.error AppError.storeUnavailable :=
  ⟨rfl, rfl⟩

/-- C5 amended: for every readable store state (absent, or present and
parseable) and every course `c`, `append(c)` succeeds and a subsequent
`readAll()` yields the old sequence extended by `c`: its last element equals
`c` and its length is exactly one greater than before. -/
theorem append_readAll_round_trip (store : StoreFile) (courses : List Course) (c : Course)
    (h : load_courses store = Except.ok courses) :
    save_courses c store = Except.ok (StoreFile.parsed (courses ++ [c])) ∧
    load_courses (StoreFile.parsed (courses ++ [c])) = Except.ok (courses ++ [c]) ∧
    (courses ++ [c]).getLast? = some c ∧
    (courses ++ [c]).length = courses.length + 1 := by
  refine ⟨?_, rfl, List.getLast?_concat courses, by simp⟩
  simp [save_courses, h]

/-- Witness for the amended C5 theorem at a concrete input. -/
theorem append_readAll_round_trip_witness :
    load_courses StoreFile.absent = Except.ok [] ∧
    save_courses c0 StoreFile.absent = Except.ok (StoreFile.parsed [c0]) ∧
    [c0].getLast? = some c0 ∧
    [c0].length = 0 + 1 :=
  ⟨rfl, (append_readAll_round_trip StoreFile.absent [] c0 rfl).1,
    (append_readAll_round_trip StoreFile.absent [] c0 rfl).2.2.1,
    (append_readAll_round_trip StoreFile.absent [] c0 rfl).2.2.2⟩

/-- C2: a lookup by a code not present in a readable store increments the
`(route="/course/<code>", error_type="not_found")` counter exactly once and
by exactly 1, never raises (the outcome is a redirect to the catalog), and
flashes a message that contains the requested code. -/
theorem course_details_not_found_counts_once_and_redirects (ctx : RequestCtx) (code : String)
    (store : StoreFile) (courses : List Course)
    (h1 : load_courses store = Except.ok courses)
    (h2 : courses.find? (fun c => c.code == code) = none) :
    errorsCounterAdds "/course/<code>" "not_found" (course_details ctx code store).1 = [1] ∧
    (course_details ctx code store).2 = Except.ok (HandlerResult.redirect "course_catalog") ∧
    TelemetryEvent.flash ("No course found with code '" ++ code ++ "'.") "error"
      ∈ (course_details ctx code store).1 ∧
    code.data <:+: ("No course found with code '" ++ code ++ "'.").data := by
  refine ⟨?_, ?_, ?_, ?_⟩
  · simp [course_details, h1, h2, errorsCounterAdds, List.filterMap]
  · simp [course_details, h1, h2]
  · simp [course_details, h1, h2]
  · exact ⟨"No course found with code '".data, "'.".data, by simp [String.data_append]⟩

/-- Witness for the C2 theorem at a concrete input. -/
theorem course_details_not_found_witness :
    load_courses (StoreFile.parsed [c0]) = Except.ok [c0] ∧
    List.find? (fun c => c.code == "CS999") [c0] = none ∧
    errorsCounterAdds "/course/<code>" "not_found"
      (course_details ctx0 "CS999" (StoreFile.parsed [c0])).1 = [1] ∧
    (course_details ctx0 "CS999" (StoreFile.parsed [c0])).2 =
      Except.ok (HandlerResult.redirect "course_catalog") :=
  ⟨rfl, by decide,
    (course_details_not_found_counts_once_and_redirects ctx0 "CS999"
      (StoreFile.parsed [c0]) [c0] rfl (by decide)).1,
    (course_details_not_found_counts_once_and_redirects ctx0 "CS999"
      (StoreFile.parsed [c0]) [c0] rfl (by decide)).2.1⟩

/-- C1: a POST to `/add_course` with at least one required field absent or
empty flashes an error message listing every missing required field name
(each missing name occurs in the message, which joins the full missing
list), increments the `(route="/add_course", error_type="missing_fields")`
counter exactly once and by exactly 1, and redirects to the add-course
form. -/
theorem add_course_missing_fields_reports_all (ctx : RequestCtx)
    (form : List (String × String)) (store : StoreFile)
    (h : missing_fields form ≠ []) :
    TelemetryEvent.flash (missingFieldsMessage (missing_fields form)) "error"
      ∈ (add_course ctx Method.post form store).1 ∧
    missingFieldsMessage (missing_fields form) =
      "Missing fields: " ++ String.intercalate ", " (missing_fields form) ∧
    (∀ f ∈ missing_fields form,
      f.data <:+: (missingFieldsMessage (missing_fields form)).data) ∧
    errorsCounterAdds "/add_course" "missing_fields"
      (add_course ctx Method.post form store).1 = [1] ∧
    (add_course ctx Method.post form store).2.1 =
      Except.ok (HandlerResult.redirect "add_course") := by
  rcases missing_fields_shape form with h0 | hc | hc | hc
  · exact absurd h0 h
  all_goals
    exact ⟨by simp [add_course, hc], rfl, by rw [hc]; decide,
      by simp [add_course, hc, errorsCounterAdds, List.filterMap],
      by simp [add_course, hc]⟩

/-- Witness for the C1 theorem at a concrete input (form with an empty
`code` and no `name` key: both required fields are missing). -/
theorem add_course_missing_fields_witness :
    missing_fields [("code", "")] ≠ [] ∧
    missing_fields [("code", "")] = ["code", "name"] ∧
    errorsCounterAdds "/add_course" "missing_fields"
      (add_course ctx0 Method.post [("code", "")] StoreFile.absent).1 = [1] ∧
    (add_course ctx0 Method.post [("code", "")] StoreFile.absent).2.1 =
      Except.ok (HandlerResult.redirect "add_course") :=
  ⟨by decide, by decide,
    (add_course_missing_fields_reports_all ctx0 [("code", "")] StoreFile.absent
      (by decide)).2.2.2.1,
    (add_course_missing_fields_reports_all ctx0 [("code", "")] StoreFile.absent
      (by decide)).2.2.2.2⟩

/-- C6: in each of the three instrumented handlers, on every input and every
exit path (normal return, validation failure, lookup failure, propagating
store failure), the multiset of closed span names is a permutation of the
multiset of opened span names: every span opened is closed exactly once, so
the closed-span count equals the opened-span count after the request. -/
theorem handler_spans_balanced :
    (∀ (ctx : RequestCtx) (store : StoreFile),
      (spanOpens (course_catalog ctx store).1).Perm
        (spanCloses (course_catalog ctx store).1)) ∧
    (∀ (ctx : RequestCtx) (method : Method) (form : List (String × String))
        (store : StoreFile),
      (spanOpens (add_course ctx method form store).1).Perm
        (spanCloses (add_course ctx method form store).1)) ∧
    (∀ (ctx : RequestCtx) (code : String) (store : StoreFile),
      (spanOpens (course_details ctx code store).1).Perm
        (spanCloses (course_details ctx code store).1)) := by
  refine ⟨?_, ?_, ?_⟩
  · intro ctx store
    cases store <;>
      simp [course_catalog, load_courses, spanOpens, spanCloses, List.filterMap]
  · intro ctx method form store
    cases method with
    | get => simp [add_course, spanOpens, spanCloses, List.filterMap]
    | post =>
        by_cases hm : missing_fields form = []
        · rcases hb : buildCourse form with e | course
          · simp [add_course, hm, hb, spanOpens, spanCloses, List.filterMap]
          · rcases hs : save_courses course store with e | newStore <;>
              simp [add_course, hm, hb, hs, spanOpens, spanCloses, List.filterMap]
        · simp [add_course, hm, spanOpens, spanCloses, List.filterMap]
          exact List.Perm.swap "form_validation_error" "add_course_route" []
  · intro ctx code store
    cases store with
    | absent => simp [course_details, load_courses, spanOpens, spanCloses, List.filterMap]
    | unparseable =>
        simp [course_details, load_courses, spanOpens, spanCloses, List.filterMap]
    | parsed courses =>
        rcases hf : courses.find? (fun course => course.code == code) with _ | course
        · simp [course_details, load_courses, hf, spanOpens, spanCloses, List.filterMap]
        · simp [course_details, load_courses, hf, spanOpens, spanCloses, List.filterMap]
          exact List.Perm.swap ("view_course_" ++ code) "course_details_route" []

/-- Helper: `List.find?` returns the first element satisfying the predicate
when it is preceded only by elements that do not satisfy it. -/
theorem find?_first_match {α : Type} (p : α → Bool) (l1 l2 : List α) (c : α)
    (hc : p c = true) (h1 : ∀ x ∈ l1, p x = false) :
    (l1 ++ c :: l2).find? p = some c := by
  induction l1 with
  | nil => simp [List.find?_cons, hc]
  | cons a t ih =>
      have ha := h1 a (List.mem_cons_self a t)
      simp only [List.cons_append, List.find?_cons, ha]
      exact ih fun x hx => h1 x (List.mem_cons_of_mem a hx)

/-- C7: the store permits duplicate course codes — `append` succeeds on any
readable store for any course, with no uniqueness check on `code` — and when
several stored courses share the looked-up code, `GET /course/<code>` views
the first match in store order (its name becomes the `viewed_course`
attribute and the details page is rendered). -/
theorem duplicate_codes_first_match_wins :
    (∀ (store : StoreFile) (courses : List Course) (c : Course),
      load_courses store = Except.ok courses →
      save_courses c store = Except.ok (StoreFile.parsed (courses ++ [c]))) ∧
    (∀ (ctx : RequestCtx) (code : String) (l1 l2 : List Course) (c : Course),
      c.code = code → (∀ c' ∈ l1, c'.code ≠ code) →
      (course_details ctx code (StoreFile.parsed (l1 ++ c :: l2))).2 =
        Except.ok (HandlerResult.render "course_details.html") ∧
      TelemetryEvent.setAttribute "course_details_route" "viewed_course"
          (AttrValue.str c.name)
        ∈ (course_details ctx code (StoreFile.parsed (l1 ++ c :: l2))).1) := by
  constructor
  · intro store courses c h
    simp [save_courses, h]
  · intro ctx code l1 l2 c hc h1
    have hf : (l1 ++ c :: l2).find? (fun course => course.code == code) = some c :=
      find?_first_match _ l1 l2 c (by simp [hc]) fun x hx => by simp [h1 x hx]
    constructor <;> simp [course_details, load_courses, hf]

/-- Witness for the C7 theorem: a store holding two distinct courses with
the same code `CS101`; appending the duplicate succeeded and the lookup
views the first of the two. -/
theorem duplicate_codes_first_match_witness :
    c0.code = "CS101" ∧ c1.code = "CS101" ∧ c0 ≠ c1 ∧
    save_courses c1 (StoreFile.parsed [c0]) = Except.ok (StoreFile.parsed [c0, c1]) ∧
    (course_details ctx0 "CS101" (StoreFile.parsed ([] ++ c0 :: [c1]))).2 =
      Except.ok (HandlerResult.render "course_details.html") ∧
    TelemetryEvent.setAttribute "course_details_route" "viewed_course" (AttrValue.str c0.name)
      ∈ (course_details ctx0 "CS101" (StoreFile.parsed ([] ++ c0 :: [c1]))).1 :=
  ⟨by decide, by decide, by decide,
    duplicate_codes_first_match_wins.1 (StoreFile.parsed [c0]) [c0] c1 rfl,
    (duplicate_codes_first_match_wins.2 ctx0 "CS101" [] [c1] c0 (by decide) (by simp)).1,
    (duplicate_codes_first_match_wins.2 ctx0 "CS101" [] [c1] c0 (by decide) (by simp)).2⟩

/-- C9: for a completed request (the before-request hook recorded a start
time, and time did not go backwards), the after-request stage records the
duration histogram exactly once, with value `(now − start) * 1000`
milliseconds, and that value is nonnegative. -/
theorem after_request_duration_once_nonneg (endpoint remote_addr : String)
    (start now : Rat) (h : start ≤ now) :
    (after_request endpoint remote_addr (before_request start) now).filter isHistogramEvent =
      [TelemetryEvent.histogramRecord "operation_duration" ((now - start) * 1000)
        [("route", endpoint)]] ∧
    0 ≤ (now - start) * 1000 := by
  constructor
  · simp [after_request, before_request, isHistogramEvent, List.filter]
  · have hs : (0 : Rat) ≤ now - start := sub_nonneg.mpr h
    exact mul_nonneg hs (by norm_num)

/-- Witness for the C9 theorem at a concrete start/end time. -/
theorem after_request_duration_witness :
    (0 : Rat) ≤ 2 ∧
    (after_request "course_catalog" "127.0.0.1" (before_request 0) 2).filter
        isHistogramEvent =
      [TelemetryEvent.histogramRecord "operation_duration" ((2 - 0) * 1000)
        [("route", "course_catalog")]] :=
  ⟨by norm_num,
    (after_request_duration_once_nonneg "course_catalog" "127.0.0.1" 0 2 (by norm_num)).1⟩

/-- C4 counterexample: at a concrete lookup failure (`GET /course/CS999` on
an empty store) the handler increments the error counter and redirects, but
its event trace contains no span error attribute, no error status or
recorded exception, no error log line, and no nested diagnostic span (the
only span opened is the route span) — contradicting the claim that all of
those are produced on every lookup failure. -/
theorem lookup_failure_no_diagnostics_cex :
    errorsCounterAdds "/course/<code>" "not_found"
      (course_details ctx0 "CS999" StoreFile.absent).1 = [1] ∧
    (course_details ctx0 "CS999" StoreFile.absent).1.filter isErrorAttrEvent = [] ∧
    (course_details ctx0 "CS999" StoreFile.absent).1.filter isLogErrorEvent = [] ∧
    spanOpens (course_details ctx0 "CS999" StoreFile.absent).1 = ["course_details_route"] ∧
    (course_details ctx0 "CS999" StoreFile.absent).2 =
      Except.ok (HandlerResult.redirect "course_catalog") :=
  ⟨by decide, by decide, by decide, by decide, rfl⟩

/-- C4 amended: on every lookup failure on `GET /course/<code>` over a
readable store, the handler increments the error counter exactly once,
flashes a message, and redirects to the catalog — but it sets no error
attribute on the span, records no error status or exception, emits no error
log line, and opens no nested diagnostic span. -/
theorem lookup_failure_minimal_telemetry (ctx : RequestCtx) (code : String)
    (store : StoreFile) (courses : List Course)
    (h1 : load_courses store = Except.ok courses)
    (h2 : courses.find? (fun c => c.code == code) = none) :
    errorsCounterAdds "/course/<code>" "not_found" (course_details ctx code store).1 = [1] ∧
    TelemetryEvent.flash ("No course found with code '" ++ code ++ "'.") "error"
      ∈ (course_details ctx code store).1 ∧
    (course_details ctx code store).2 = Except.ok (HandlerResult.redirect "course_catalog") ∧
    (course_details ctx code store).1.filter isErrorAttrEvent = [] ∧
    (course_details ctx code store).1.filter isLogErrorEvent = [] ∧
    spanOpens (course_details ctx code store).1 = ["course_details_route"] := by
  refine ⟨?_, ?_, ?_, ?_, ?_, ?_⟩ <;>
    simp [course_details, h1, h2, errorsCounterAdds, isErrorAttrEvent, isLogErrorEvent,
      spanOpens, List.filterMap, List.filter]

/-- Witness for the amended C4 theorem at a concrete input. -/
theorem lookup_failure_minimal_telemetry_witness :
    load_courses (StoreFile.parsed []) = Except.ok [] ∧
    errorsCounterAdds "/course/<code>" "not_found"
      (course_details ctx0 "EE999" (StoreFile.parsed [])).1 = [1] ∧
    (course_details ctx0 "EE999" (StoreFile.parsed [])).1.filter isErrorAttrEvent = [] ∧
    spanOpens (course_details ctx0 "EE999" (StoreFile.parsed [])).1 =
      ["course_details_route"] :=
  ⟨rfl,
    (lookup_failure_minimal_telemetry ctx0 "EE999" (StoreFile.parsed []) [] rfl rfl).1,
    (lookup_failure_minimal_telemetry ctx0 "EE999" (StoreFile.parsed []) [] rfl rfl).2.2.2.1,
    (lookup_failure_minimal_telemetry ctx0 "EE999" (StoreFile.parsed []) [] rfl rfl).2.2.2.2.2⟩

/-- The seven form keys read by the dict literal of `add_course` beyond the
two required ones, in source evaluation order. -/
def otherFormKeys : List String :=
  ["instructor", "semester", "schedule", "classroom", "prerequisites", "grading",
   "description"]

/-- Helper: a required field passes the presence check iff it is bound to a
nonempty value. -/
theorem isMissing_false_iff (form : List (String × String)) (field : String) :
    isMissing form field = false ↔ ∃ v, formGet form field = some v ∧ v ≠ "" := by
  unfold isMissing
  rcases h : formGet form field with _ | v <;> simp [h]

/-- Helper: the missing-field list is empty iff both required fields pass
the presence check. -/
theorem missing_fields_nil_iff (form : List (String × String)) :
    missing_fields form = [] ↔
      isMissing form "code" = false ∧ isMissing form "name" = false := by
  unfold missing_fields required_fields
  cases h1 : isMissing form "code" <;> cases h2 : isMissing form "name" <;>
    simp [List.filter, h1, h2]

/-- C10: on a POST to `/add_course` whose required fields pass validation,
if any of the seven other form keys is entirely absent the handler raises an
unhandled key-lookup error (`BadRequestKeyError`, HTTP 400) instead of a
handled validation error; and if all nine keys are present (the seven
non-required ones possibly empty) on a readable store, the submission
succeeds and redirects to the catalog. -/
theorem add_course_requires_all_nine_keys (ctx : RequestCtx)
    (form : List (String × String)) (store : StoreFile)
    (hmiss : missing_fields form = []) :
    ((∃ k ∈ otherFormKeys, formGet form k = none) →
      ∃ k ∈ otherFormKeys, formGet form k = none ∧
        (add_course ctx Method.post form store).2.1 =
          Except.error (AppError.keyError k)) ∧
    ((∀ k ∈ otherFormKeys, ∃ v, formGet form k = some v) →
      ∀ courses, load_courses store = Except.ok courses →
        (add_course ctx Method.post form store).2.1 =
          Except.ok (HandlerResult.redirect "course_catalog")) := by
  obtain ⟨hc, hn⟩ := (missing_fields_nil_iff form).mp hmiss
  obtain ⟨vc, hvc, -⟩ := (isMissing_false_iff form "code").mp hc
  obtain ⟨vn, hvn, -⟩ := (isMissing_false_iff form "name").mp hn
  constructor
  · intro hex
    rcases hgi : formGet form "instructor" with _ | vi
    · refine ⟨"instructor", by simp [otherFormKeys], hgi, ?_⟩
      have hb : buildCourse form = Except.error (AppError.keyError "instructor") := by
        simp [buildCourse, formIndex, Bind.bind, Except.bind, hvc, hvn, hgi]
      simp [add_course, hmiss, hb]
    rcases hgs : formGet form "semester" with _ | vs
    · refine ⟨"semester", by simp [otherFormKeys], hgs, ?_⟩
      have hb : buildCourse form = Except.error (AppError.keyError "semester") := by
        simp [buildCourse, formIndex, Bind.bind, Except.bind, hvc, hvn, hgi, hgs]
      simp [add_course, hmiss, hb]
    rcases hsch : formGet form "schedule" with _ | vsch
    · refine ⟨"schedule", by simp [otherFormKeys], hsch, ?_⟩
      have hb : buildCourse form = Except.error (AppError.keyError "schedule") := by
        simp [buildCourse, formIndex, Bind.bind, Except.bind, hvc, hvn, hgi, hgs, hsch]
      simp [add_course, hmiss, hb]
    rcases hcl : formGet form "classroom" with _ | vcl
    · refine ⟨"classroom", by simp [otherFormKeys], hcl, ?_⟩
      have hb : buildCourse form = Except.error (AppError.keyError "classroom") := by
        simp [buildCourse, formIndex, Bind.bind, Except.bind, hvc, hvn, hgi, hgs, hsch, hcl]
      simp [add_course, hmiss, hb]
    rcases hpre : formGet form "prerequisites" with _ | vpre
    · refine ⟨"prerequisites", by simp [otherFormKeys], hpre, ?_⟩
      have hb : buildCourse form = Except.error (AppError.keyError "prerequisites") := by
        simp [buildCourse, formIndex, Bind.bind, Except.bind, hvc, hvn, hgi, hgs, hsch,
          hcl, hpre]
      simp [add_course, hmiss, hb]
    rcases hgr : formGet form "grading" with _ | vgr
    · refine ⟨"grading", by simp [otherFormKeys], hgr, ?_⟩
      have hb : buildCourse form = Except.error (AppError.keyError "grading") := by
        simp [buildCourse, formIndex, Bind.bind, Except.bind, hvc, hvn, hgi, hgs, hsch,
          hcl, hpre, hgr]
      simp [add_course, hmiss, hb]
    rcases hd : formGet form "description" with _ | vd
    · refine ⟨"description", by simp [otherFormKeys], hd, ?_⟩
      have hb : buildCourse form = Except.error (AppError.keyError "description") := by
        simp [buildCourse, formIndex, Bind.bind, Except.bind, hvc, hvn, hgi, hgs, hsch,
          hcl, hpre, hgr, hd]
      simp [add_course, hmiss, hb]
    exfalso
    obtain ⟨k, hk, hkn⟩ := hex
    simp [otherFormKeys] at hk
    rcases hk with rfl | rfl | rfl | rfl | rfl | rfl | rfl <;> simp_all
  · intro hall courses hload
    obtain ⟨vi, hgi⟩ := hall "instructor" (by simp [otherFormKeys])
    obtain ⟨vs, hgs⟩ := hall "semester" (by simp [otherFormKeys])
    obtain ⟨vsch, hsch⟩ := hall "schedule" (by simp [otherFormKeys])
    obtain ⟨vcl, hcl⟩ := hall "classroom" (by simp [otherFormKeys])
    obtain ⟨vpre, hpre⟩ := hall "prerequisites" (by simp [otherFormKeys])
    obtain ⟨vgr, hgr⟩ := hall "grading" (by simp [otherFormKeys])
    obtain ⟨vd, hd⟩ := hall "description" (by simp [otherFormKeys])
    have hb : buildCourse form = Except.ok
        { code := vc, name := vn, instructor := vi, semester := vs, schedule := vsch,
          classroom := vcl, prerequisites := vpre, grading := vgr, description := vd } := by
      simp [buildCourse, formIndex, Bind.bind, Except.bind, hvc, hvn, hgi, hgs, hsch,
        hcl, hpre, hgr, hd]
    simp [add_course, hmiss, hb, save_courses, hload]

/-- A submitted form holding only the two required fields. -/
def form2 : List (String × String) := [("code", "CS101"), ("name", "Intro")]

/-- A submitted form holding all nine keys, the seven non-required ones
bound to empty strings. -/
def form9 : List (String × String) :=
  [("code", "CS101"), ("name", "Intro"), ("instructor", ""), ("semester", ""),
   ("schedule", ""), ("classroom", ""), ("prerequisites", ""), ("grading", ""),
   ("description", "")]

/-- Witness for the C10 theorem: a form with only `code` and `name` passes
validation but raises a key error; a form with all nine keys (seven empty)
succeeds. -/
theorem add_course_requires_all_nine_keys_witness :
    missing_fields form2 = [] ∧
    (∃ k ∈ otherFormKeys, formGet form2 k = none ∧
      (add_course ctx0 Method.post form2 StoreFile.absent).2.1 =
        Except.error (AppError.keyError k)) ∧
    missing_fields form9 = [] ∧
    (add_course ctx0 Method.post form9 StoreFile.absent).2.1 =
      Except.ok (HandlerResult.redirect "course_catalog") :=
  ⟨by decide,
    (add_course_requires_all_nine_keys ctx0 form2 StoreFile.absent (by decide)).1
      ⟨"instructor", by decide, by decide⟩,
    by decide,
    (add_course_requires_all_nine_keys ctx0 form9 StoreFile.absent (by decide)).2
      (by
        intro k hk
        fin_cases hk <;> exact ⟨"", rfl⟩)
      [] rfl⟩
